import Mathlib

/-
Verification of the libcontract-sys declaration surface (src/lib.rs).

The crate contains no executable logic of its own: it declares numeric
constants, two opaque handle struct types produced by the opaque_handle!
macro, two enums, record layouts, and extern "C" function signatures.
We embed that declaration surface as Lean data, transcribed from the
source: constants as definitions, enums as inductives with their
repr(C) discriminants, struct declarations as ordered field lists, and
every extern entry point as a record of its name, parameter types and
return type, in source order.
-/

namespace ContractSys

/-! ## Constants (src/lib.rs lines 42-64) -/

/-- Values for the detail argument of ct_status_read; Rust type c_int. -/
def CTD_COMMON : Int := 0

/-- Detail level FIXED; Rust type c_int. -/
def CTD_FIXED : Int := 1

/-- Detail level ALL; Rust type c_int. -/
def CTD_ALL : Int := 2

/-- Common event type negotiation-end; Rust type c_uint. -/
def CT_EV_NEGEND : Nat := 0

/-- Contract parameter maximum size in bytes; Rust type usize. -/
def CT_PARAM_MAX_SIZE : Nat := 8192

/-- Event flag: event has been acknowledged; Rust type c_uint. -/
def CTE_ACK : Nat := 0x1

/-- Event flag: informative event; Rust type c_uint. -/
def CTE_INFO : Nat := 0x2

/-- Event flag: negotiable event; Rust type c_uint. -/
def CTE_NEG : Nat := 0x4

/-! ## Enums (src/lib.rs lines 66-80) -/

/-- Contract lifecycle state enum, repr(C), four variants in source order. -/
inductive ctstate_t where
  | CTS_OWNED
  | CTS_INHERITED
  | CTS_ORPHAN
  | CTS_DEAD
deriving DecidableEq

/-- Discriminant of each ctstate_t variant: a repr(C) Rust enum with no
explicit discriminants numbers its variants consecutively from 0 in
declaration order (this is also what the derived ToPrimitive exposes). -/
def ctstate_t.toPrimitive : ctstate_t → Nat
  | .CTS_OWNED => 0
  | .CTS_INHERITED => 1
  | .CTS_ORPHAN => 2
  | .CTS_DEAD => 3

/-- Contract type enum, repr(C), two variants in source order. -/
inductive ct_typeid_t where
  | CTT_PROCESS
  | CTT_DEVICE
deriving DecidableEq

/-- Discriminant of each ct_typeid_t variant (repr(C), consecutive from 0). -/
def ct_typeid_t.toPrimitive : ct_typeid_t → Nat
  | .CTT_PROCESS => 0
  | .CTT_DEVICE => 1

/-! ## Marker-type grammar and Rust auto-trait rules

The opaque_handle! macro gives each handle struct a zero-length byte
array field and the field
  _marker : PhantomData<(*mut u8, PhantomPinned)>.
To reason about Send / Sync / Unpin we embed the grammar of types that
occur in those fields and Rust's structural auto-trait rules: a raw
pointer is neither Send nor Sync but is Unpin; PhantomPinned is Send and
Sync but not Unpin; PhantomData<T>, arrays and tuples propagate each
auto trait from their components; a struct implements an auto trait
exactly when all its fields do. -/

inductive MTy where
  | u8
  | mutPtr (t : MTy)
  | phantomPinned
  | phantomData (t : MTy)
  | array (t : MTy) (n : Nat)
  | pair (a b : MTy)
deriving DecidableEq

/-- Whether a marker-grammar type is Send under Rust's auto-trait rules. -/
def MTy.isSend : MTy → Bool
  | .u8 => true
  | .mutPtr _ => false
  | .phantomPinned => true
  | .phantomData t => t.isSend
  | .array t _ => t.isSend
  | .pair a b => a.isSend && b.isSend

/-- Whether a marker-grammar type is Sync under Rust's auto-trait rules. -/
def MTy.isSync : MTy → Bool
  | .u8 => true
  | .mutPtr _ => false
  | .phantomPinned => true
  | .phantomData t => t.isSync
  | .array t _ => t.isSync
  | .pair a b => a.isSync && b.isSync

/-- Whether a marker-grammar type is Unpin under Rust's auto-trait rules. -/
def MTy.isUnpin : MTy → Bool
  | .u8 => true
  | .mutPtr _ => true
  | .phantomPinned => false
  | .phantomData t => t.isUnpin
  | .array t _ => t.isUnpin
  | .pair a b => a.isUnpin && b.isUnpin

/-- A declared struct field: its name, its type, and whether the source
marks it pub. -/
structure FieldDecl (τ : Type) where
  name : String
  ty : τ
  isPub : Bool
deriving DecidableEq

/-- A struct is Send exactly when every field type is. -/
def structSend (fs : List (FieldDecl MTy)) : Bool :=
  fs.all (fun f => f.ty.isSend)

/-- A struct is Sync exactly when every field type is. -/
def structSync (fs : List (FieldDecl MTy)) : Bool :=
  fs.all (fun f => f.ty.isSync)

/-- A struct is Unpin exactly when every field type is. -/
def structUnpin (fs : List (FieldDecl MTy)) : Bool :=
  fs.all (fun f => f.ty.isUnpin)

/-! ## The opaque_handle! macro (src/lib.rs lines 16-38) -/

/-- Field list each opaque_handle! expansion declares: a private
zero-length byte array and the private PhantomData marker. -/
def opaqueHandleFields : List (FieldDecl MTy) :=
  [⟨"_data", .array .u8 0, false⟩,
   ⟨"_marker", .phantomData (.pair (.mutPtr .u8) .phantomPinned), false⟩]

/-- Traits the opaque_handle! macro implements for the generated type. -/
def opaqueHandleImpls : List String := ["Copy", "Clone"]

/-- Field declarations of ct_stathdl_t (opaque_handle! expansion). -/
def ct_stathdl_fieldDecls : List (FieldDecl MTy) := opaqueHandleFields

/-- Field declarations of ct_evthdl_t (opaque_handle! expansion). -/
def ct_evthdl_fieldDecls : List (FieldDecl MTy) := opaqueHandleFields

/-- Traits implemented for ct_stathdl_t by its opaque_handle! expansion. -/
def ct_stathdl_impls : List String := opaqueHandleImpls

/-- Traits implemented for ct_evthdl_t by its opaque_handle! expansion. -/
def ct_evthdl_impls : List String := opaqueHandleImpls

/-! ## Handle values

Value-level model of the generated structs: the _data field is a byte
array of length zero and the PhantomData marker is zero-sized, so both
are modelled by their (unique) inhabitants. clone is transcribed from
the macro body, which returns the dereferenced receiver. -/

/-- Value model of the ct_stathdl_t struct. -/
structure ct_stathdl_t where
  data0 : { l : List Nat // l.length = 0 }
  marker : Unit

/-- clone for ct_stathdl_t as the macro writes it: it returns the
bitwise copy of the receiver. -/
def ct_stathdl_t.clone (s : ct_stathdl_t) : ct_stathdl_t := s

/-- Value model of the ct_evthdl_t struct. -/
structure ct_evthdl_t where
  data0 : { l : List Nat // l.length = 0 }
  marker : Unit

/-- clone for ct_evthdl_t as the macro writes it: it returns the
bitwise copy of the receiver. -/
def ct_evthdl_t.clone (s : ct_evthdl_t) : ct_evthdl_t := s

/-! ## C-level type grammar for record fields and extern signatures -/

/-- Types that appear in the crate's record declarations and extern "C"
signatures. -/
inductive CTy where
  | unit
  | c_int
  | c_uint
  | c_char
  | u32
  | u64
  | usize
  | ctid_t
  | id_t
  | pid_t
  | zoneid_t
  | ctevid_t
  | ctstate_t
  | ct_typeid_t
  | ct_stathdl_t
  | ct_evthdl_t
  | constPtr (t : CTy)
  | mutPtr (t : CTy)
deriving DecidableEq

/-! ## Record layouts (src/lib.rs lines 98-117) -/

/-- Fields of the ct_status_t record, in declaration order, with the
type and pub visibility each carries in the source. -/
def ct_status_t_fields : List (FieldDecl CTy) :=
  [⟨"ctst_id", .ctid_t, true⟩,
   ⟨"ctst_zoneid", .zoneid_t, true⟩,
   ⟨"ctst_type", .ct_typeid_t, true⟩,
   ⟨"ctst_holder", .pid_t, true⟩,
   ⟨"ctst_state", .ctstate_t, true⟩,
   ⟨"ctst_nevents", .c_int, true⟩,
   ⟨"ctst_ntime", .c_int, true⟩,
   ⟨"ctst_qtime", .c_int, true⟩,
   ⟨"ctst_nevid", .u64, true⟩,
   ⟨"ctst_detail", .c_uint, true⟩,
   ⟨"ctst_nbytes", .usize, true⟩,
   ⟨"ctst_critical", .c_uint, true⟩,
   ⟨"ctst_informative", .c_uint, true⟩,
   ⟨"ctst_cookie", .u64, true⟩,
   ⟨"ctst_buffer", .mutPtr .c_char, true⟩]

/-- Field order of the status record as the specification lists it:
contract id, owning zone id, contract type, holder process id,
lifecycle state, the three event/time counters, next event id, detail
level, auxiliary buffer size and pointer, critical and informative
event masks, application cookie. Written from the spec's words, for
comparison with ct_status_t_fields, which is transcribed from the
source. -/
def specStatusFieldOrder : List String :=
  ["ctst_id", "ctst_zoneid", "ctst_type", "ctst_holder", "ctst_state",
   "ctst_nevents", "ctst_ntime", "ctst_qtime", "ctst_nevid",
   "ctst_detail", "ctst_nbytes", "ctst_buffer", "ctst_critical",
   "ctst_informative", "ctst_cookie"]

/-! ## Extern "C" entry points (src/lib.rs lines 127-344) -/

/-- One extern "C" function declaration: its name, its parameter types
in order, and its declared return type (unit when the declaration has
no return type). -/
structure FfiSig where
  name : String
  params : List CTy
  ret : CTy
deriving DecidableEq

set_option maxHeartbeats 2000000 in
/-- Every extern "C" entry point the crate declares, in source order. -/
def externFns : List FfiSig :=
  [⟨"ct_tmpl_activate", [.c_int], .c_int⟩,
   ⟨"ct_tmpl_clear", [.c_int], .c_int⟩,
   ⟨"ct_tmpl_create", [.c_int, .mutPtr .ctid_t], .c_int⟩,
   ⟨"ct_tmpl_set_cookie", [.c_int, .u64], .c_int⟩,
   ⟨"ct_tmpl_set_critical", [.c_int, .c_uint], .c_int⟩,
   ⟨"ct_tmpl_set_informative", [.c_int, .c_uint], .c_int⟩,
   ⟨"ct_tmpl_get_cookie", [.c_int, .mutPtr .u64], .c_int⟩,
   ⟨"ct_tmpl_get_critical", [.c_int, .mutPtr .c_uint], .c_int⟩,
   ⟨"ct_tmpl_get_informative", [.c_int, .mutPtr .c_uint], .c_int⟩,
   ⟨"ct_ctl_adopt", [.c_int], .c_int⟩,
   ⟨"ct_ctl_abandon", [.c_int], .c_int⟩,
   ⟨"ct_ctl_newct", [.c_int, .ctevid_t, .c_int], .c_int⟩,
   ⟨"ct_ctl_ack", [.c_int, .ctevid_t], .c_int⟩,
   ⟨"ct_ctl_nack", [.c_int, .ctevid_t], .c_int⟩,
   ⟨"ct_ctl_qack", [.c_int, .ctevid_t], .c_int⟩,
   ⟨"ct_status_read", [.c_int, .c_int, .mutPtr (.mutPtr .ct_stathdl_t)],
    .c_int⟩,
   ⟨"ct_status_free", [.mutPtr .ct_stathdl_t], .unit⟩,
   ⟨"ct_status_get_id", [.mutPtr .ct_stathdl_t], .ctid_t⟩,
   ⟨"ct_status_get_zoneid", [.ct_stathdl_t], .zoneid_t⟩,
   ⟨"ct_status_get_type", [.ct_stathdl_t], .constPtr .c_char⟩,
   ⟨"ct_status_get_state", [.ct_stathdl_t], .ctstate_t⟩,
   ⟨"ct_status_get_holder", [.ct_stathdl_t], .id_t⟩,
   ⟨"ct_status_get_nevents", [.ct_stathdl_t], .c_int⟩,
   ⟨"ct_status_get_ntime", [.ct_stathdl_t], .c_int⟩,
   ⟨"ct_status_get_qtime", [.ct_stathdl_t], .c_int⟩,
   ⟨"ct_status_get_nevid", [.ct_stathdl_t], .ctevid_t⟩,
   ⟨"ct_status_get_cookie", [.ct_stathdl_t], .u64⟩,
   ⟨"ct_status_get_informative", [.ct_stathdl_t], .c_uint⟩,
   ⟨"ct_status_get_critical", [.ct_stathdl_t], .c_uint⟩,
   ⟨"ct_event_read", [.c_int, .mutPtr (.mutPtr .ct_evthdl_t)], .c_int⟩,
   ⟨"ct_event_read_critical", [.c_int, .mutPtr (.mutPtr .ct_evthdl_t)],
    .c_int⟩,
   ⟨"ct_event_reset", [.c_int], .c_int⟩,
   ⟨"ct_event_reliable", [.c_int], .c_int⟩,
   ⟨"ct_event_free", [.mutPtr .ct_evthdl_t], .unit⟩,
   ⟨"ct_event_get_ctid", [.mutPtr .ct_evthdl_t], .ctid_t⟩,
   ⟨"ct_event_get_evid", [.mutPtr .ct_evthdl_t], .ctevid_t⟩,
   ⟨"ct_event_get_flags", [.mutPtr .ct_evthdl_t], .c_uint⟩,
   ⟨"ct_event_get_type", [.mutPtr .ct_evthdl_t], .c_uint⟩,
   ⟨"ct_event_get_nevid", [.mutPtr .ct_evthdl_t, .mutPtr .ctevid_t],
    .c_int⟩,
   ⟨"ct_event_get_newct", [.mutPtr .ct_evthdl_t, .mutPtr .ctid_t],
    .c_int⟩,
   ⟨"ct_pr_tmpl_set_transfer", [.c_int, .ctid_t], .c_int⟩,
   ⟨"ct_pr_tmpl_set_fatal", [.c_int, .c_uint], .c_int⟩,
   ⟨"ct_pr_tmpl_set_param", [.c_int, .c_uint], .c_int⟩,
   ⟨"ct_pr_tmpl_set_svc_fmri", [.c_int, .constPtr .c_char], .c_int⟩,
   ⟨"ct_pr_tmpl_set_svc_aux", [.c_int, .constPtr .c_char], .c_int⟩,
   ⟨"ct_pr_tmpl_get_transfer", [.c_int, .mutPtr .ctid_t], .c_int⟩,
   ⟨"ct_pr_tmpl_get_fatal", [.c_int, .mutPtr .c_uint], .c_int⟩,
   ⟨"ct_pr_tmpl_get_param", [.c_int, .mutPtr .c_uint], .c_int⟩,
   ⟨"ct_pr_tmpl_get_svc_fmri", [.c_int, .mutPtr .c_char, .usize],
    .c_int⟩,
   ⟨"ct_pr_tmpl_get_svc_aux", [.c_int, .mutPtr .c_char, .usize],
    .c_int⟩,
   ⟨"ct_pr_event_get_pid", [.ct_evthdl_t, .mutPtr .pid_t], .c_int⟩,
   ⟨"ct_pr_event_get_ppid", [.ct_evthdl_t, .mutPtr .pid_t], .c_int⟩,
   ⟨"ct_pr_event_get_signal", [.ct_evthdl_t, .mutPtr .c_int], .c_int⟩,
   ⟨"ct_pr_event_get_sender", [.ct_evthdl_t, .mutPtr .pid_t], .c_int⟩,
   ⟨"ct_pr_event_get_senderct", [.ct_evthdl_t, .mutPtr .ctid_t],
    .c_int⟩,
   ⟨"ct_pr_event_get_exitstatus", [.ct_evthdl_t, .mutPtr .c_int],
    .c_int⟩,
   ⟨"ct_pr_event_get_pcorefile", [.ct_evthdl_t, .mutPtr (.mutPtr .c_char)],
    .c_int⟩,
   ⟨"ct_pr_event_get_gcorefile", [.ct_evthdl_t, .mutPtr (.mutPtr .c_char)],
    .c_int⟩,
   ⟨"ct_pr_event_get_zcorefile", [.ct_evthdl_t, .mutPtr (.mutPtr .c_char)],
    .c_int⟩,
   ⟨"ct_pr_status_get_param", [.constPtr .ct_stathdl_t, .mutPtr .c_uint],
    .c_int⟩,
   ⟨"ct_pr_status_get_fatal", [.constPtr .ct_stathdl_t, .mutPtr .c_uint],
    .c_int⟩,
   ⟨"ct_pr_status_get_members",
    [.constPtr .ct_stathdl_t, .mutPtr (.mutPtr .pid_t), .mutPtr .c_uint],
    .c_int⟩,
   ⟨"ct_pr_status_get_contracts",
    [.constPtr .ct_stathdl_t, .mutPtr (.mutPtr .ctid_t), .mutPtr .c_uint],
    .c_int⟩,
   ⟨"ct_pr_status_get_svc_fmri",
    [.constPtr .ct_stathdl_t, .mutPtr (.mutPtr .c_char)], .c_int⟩,
   ⟨"ct_pr_status_get_svc_aux",
    [.constPtr .ct_stathdl_t, .mutPtr (.mutPtr .c_char)], .c_int⟩,
   ⟨"ct_pr_status_get_svc_ctid",
    [.constPtr .ct_stathdl_t, .mutPtr .ctid_t], .c_int⟩,
   ⟨"ct_pr_status_get_svc_creator",
    [.constPtr .ct_stathdl_t, .mutPtr (.mutPtr .c_char)], .c_int⟩,
   ⟨"ct_dev_tmpl_set_aset", [.c_int, .c_uint], .c_int⟩,
   ⟨"ct_dev_tmpl_get_aset", [.c_int, .mutPtr .c_uint], .c_int⟩,
   ⟨"ct_dev_tmpl_set_minor", [.c_int, .constPtr .c_char], .c_int⟩,
   ⟨"ct_dev_tmpl_get_minor", [.c_int, .mutPtr .c_char, .mutPtr .usize],
    .c_int⟩,
   ⟨"ct_dev_tmpl_set_noneg", [.c_int], .c_int⟩,
   ⟨"ct_dev_tmpl_clear_noneg", [.c_int], .c_int⟩,
   ⟨"ct_dev_tmpl_get_noneg", [.c_int, .mutPtr .c_uint], .c_int⟩,
   ⟨"ct_dev_status_get_dev_state",
    [.constPtr .ct_stathdl_t, .mutPtr .c_uint], .c_int⟩,
   ⟨"ct_dev_status_get_aset",
    [.constPtr .ct_stathdl_t, .mutPtr .c_uint], .c_int⟩,
   ⟨"ct_dev_status_get_minor",
    [.constPtr .ct_stathdl_t, .mutPtr (.mutPtr .c_char)], .c_int⟩,
   ⟨"ct_dev_status_get_noneg",
    [.constPtr .ct_stathdl_t, .mutPtr .c_uint], .c_int⟩]

/-- The two release entry points. -/
def releaseOps : List String := ["ct_status_free", "ct_event_free"]

/-- Entry points that return the projected value directly rather than a
status code: the twelve ct_status_get_xx accessors and the four
unconditional event accessors. -/
def directValueAccessors : List String :=
  ["ct_status_get_id", "ct_status_get_zoneid", "ct_status_get_type",
   "ct_status_get_state", "ct_status_get_holder",
   "ct_status_get_nevents", "ct_status_get_ntime",
   "ct_status_get_qtime", "ct_status_get_nevid",
   "ct_status_get_cookie", "ct_status_get_informative",
   "ct_status_get_critical", "ct_event_get_ctid", "ct_event_get_evid",
   "ct_event_get_flags", "ct_event_get_type"]

/-- Whether a parameter type is the status handle, in any of the
passing modes the source uses (by value, by mut pointer, by const
pointer). -/
def isStatusHandleTy (t : CTy) : Bool :=
  t == .ct_stathdl_t || t == .mutPtr .ct_stathdl_t
    || t == .constPtr .ct_stathdl_t

/-! ## Claim theorems -/

/-- Claim C1: every named constant is bound to exactly the native
value: CTD_COMMON = 0, CTD_FIXED = 1, CTD_ALL = 2, CT_EV_NEGEND = 0,
CT_PARAM_MAX_SIZE = 8192, CTE_ACK = 0x1, CTE_INFO = 0x2,
CTE_NEG = 0x4. -/
theorem constants_match_native :
    CTD_COMMON = 0 ∧ CTD_FIXED = 1 ∧ CTD_ALL = 2 ∧ CT_EV_NEGEND = 0
    ∧ CT_PARAM_MAX_SIZE = 8192 ∧ CTE_ACK = 0x1 ∧ CTE_INFO = 0x2
    ∧ CTE_NEG = 0x4 :=
  ⟨rfl, rfl, rfl, rfl, rfl, rfl, rfl, rfl⟩

/-- Claim C5: the contract-state enumeration has exactly the four
variants CTS_OWNED, CTS_INHERITED, CTS_ORPHAN, CTS_DEAD, in that
declaration order with consecutive discriminants 0, 1, 2, 3, so the
numeric order of the discriminants matches the lifecycle order. -/
theorem ctstate_variants_and_discriminants :
    ctstate_t.toPrimitive .CTS_OWNED = 0
    ∧ ctstate_t.toPrimitive .CTS_INHERITED = 1
    ∧ ctstate_t.toPrimitive .CTS_ORPHAN = 2
    ∧ ctstate_t.toPrimitive .CTS_DEAD = 3
    ∧ (∀ s : ctstate_t, s = .CTS_OWNED ∨ s = .CTS_INHERITED
        ∨ s = .CTS_ORPHAN ∨ s = .CTS_DEAD)
    ∧ ctstate_t.toPrimitive .CTS_OWNED
        < ctstate_t.toPrimitive .CTS_INHERITED
    ∧ ctstate_t.toPrimitive .CTS_INHERITED
        < ctstate_t.toPrimitive .CTS_ORPHAN
    ∧ ctstate_t.toPrimitive .CTS_ORPHAN
        < ctstate_t.toPrimitive .CTS_DEAD := by
  refine ⟨rfl, rfl, rfl, rfl, ?_, by decide, by decide, by decide⟩
  intro s
  cases s <;> simp

/-- Claim C8: the event-flag constants CTE_ACK, CTE_INFO, CTE_NEG are
distinct powers of two, pairwise disjoint under bitwise AND, and all
eight OR-combinations of the three flags are distinct values. -/
theorem cte_flags_independent_bits :
    CTE_ACK = 2 ^ 0 ∧ CTE_INFO = 2 ^ 1 ∧ CTE_NEG = 2 ^ 2
    ∧ Nat.land CTE_ACK CTE_INFO = 0 ∧ Nat.land CTE_ACK CTE_NEG = 0
    ∧ Nat.land CTE_INFO CTE_NEG = 0
    ∧ List.Nodup
        [0, CTE_ACK, CTE_INFO, CTE_NEG,
         Nat.lor CTE_ACK CTE_INFO, Nat.lor CTE_ACK CTE_NEG,
         Nat.lor CTE_INFO CTE_NEG,
         Nat.lor (Nat.lor CTE_ACK CTE_INFO) CTE_NEG] := by
  decide

/-- Claim C10: cloning an opaque handle value is the identity bitwise
copy, and both handle value types carry a zero-sized payload, so any
two values of the same handle type are equal. -/
theorem opaque_handle_clone_identity :
    (∀ x : ct_stathdl_t, x.clone = x) ∧ (∀ x : ct_evthdl_t, x.clone = x)
    ∧ (∀ x y : ct_stathdl_t, x = y) ∧ (∀ x y : ct_evthdl_t, x = y) := by
  refine ⟨fun x => rfl, fun x => rfl, ?_, ?_⟩ <;>
  · rintro ⟨⟨l1, h1⟩, u1⟩ ⟨⟨l2, h2⟩, u2⟩
    rw [List.length_eq_zero] at h1 h2
    subst h1
    subst h2
    rfl

/-- Claim C9: both opaque handle structs carry the PhantomData marker
field, and under Rust's auto-trait propagation rules that marker makes
the structs neither Send nor Sync nor Unpin; without the marker field
the remaining fields would satisfy all three. -/
theorem opaque_handles_not_send_sync_unpin :
    structSend ct_stathdl_fieldDecls = false
    ∧ structSync ct_stathdl_fieldDecls = false
    ∧ structUnpin ct_stathdl_fieldDecls = false
    ∧ structSend ct_evthdl_fieldDecls = false
    ∧ structSync ct_evthdl_fieldDecls = false
    ∧ structUnpin ct_evthdl_fieldDecls = false
    ∧ (⟨"_marker", .phantomData (.pair (.mutPtr .u8) .phantomPinned),
        false⟩ : FieldDecl MTy) ∈ ct_stathdl_fieldDecls
    ∧ (⟨"_marker", .phantomData (.pair (.mutPtr .u8) .phantomPinned),
        false⟩ : FieldDecl MTy) ∈ ct_evthdl_fieldDecls
    ∧ structSend (ct_stathdl_fieldDecls.filter
        (fun f => f.name != "_marker")) = true
    ∧ structSync (ct_stathdl_fieldDecls.filter
        (fun f => f.name != "_marker")) = true
    ∧ structUnpin (ct_stathdl_fieldDecls.filter
        (fun f => f.name != "_marker")) = true := by
  decide

/-- Claim C4, counterexample: the claim says a handle value cannot be
duplicated by value through the binding's type, but the opaque_handle!
expansion implements Copy and Clone for both handle types, which is
exactly the duplication-by-value the claim rules out. -/
theorem opaque_handle_copy_impl_present :
    "Copy" ∈ ct_stathdl_impls ∧ "Clone" ∈ ct_stathdl_impls
    ∧ "Copy" ∈ ct_evthdl_impls ∧ "Clone" ∈ ct_evthdl_impls := by
  decide

/-- Claim C4 as amended: the opaque handle types forbid field access
(neither declared field is pub), but they implement Copy and Clone, so
handle values are bitwise-duplicable by value. -/
theorem opaque_handle_private_fields_and_copy :
    ct_stathdl_fieldDecls.filter (fun f => f.isPub) = []
    ∧ ct_evthdl_fieldDecls.filter (fun f => f.isPub) = []
    ∧ "Copy" ∈ ct_stathdl_impls ∧ "Clone" ∈ ct_stathdl_impls
    ∧ "Copy" ∈ ct_evthdl_impls ∧ "Clone" ∈ ct_evthdl_impls := by
  decide

/-- Claim C2, counterexample: the declared field order of ct_status_t
is not the order the claim lists: at index 11 the source declares
ctst_critical while the claim's listing places the auxiliary buffer
pointer there; the source declares ctst_buffer last, after the
cookie. -/
theorem status_field_order_differs_from_spec_listing :
    ct_status_t_fields.map (fun f => f.name) ≠ specStatusFieldOrder
    ∧ (ct_status_t_fields.map (fun f => f.name))[11]? =
        some "ctst_critical"
    ∧ specStatusFieldOrder[11]? = some "ctst_buffer"
    ∧ (ct_status_t_fields.map (fun f => f.name))[14]? =
        some "ctst_buffer" := by
  decide

/-- Claim C2 as amended: ct_status_t contains exactly the fifteen
fields the spec lists and no others, without duplicates, but in the
declared order the auxiliary buffer pointer comes last, after the
critical and informative masks and the cookie. -/
theorem status_fields_exactly_spec_set :
    ct_status_t_fields.map (fun f => f.name) =
      ["ctst_id", "ctst_zoneid", "ctst_type", "ctst_holder",
       "ctst_state", "ctst_nevents", "ctst_ntime", "ctst_qtime",
       "ctst_nevid", "ctst_detail", "ctst_nbytes", "ctst_critical",
       "ctst_informative", "ctst_cookie", "ctst_buffer"]
    ∧ List.Perm (ct_status_t_fields.map (fun f => f.name))
        specStatusFieldOrder
    ∧ (ct_status_t_fields.map (fun f => f.name)).Nodup := by
  decide

/-- Claim C3, counterexample: the claim says every foreign entry point,
the release operations ct_status_free and ct_event_free included, is
declared to return a native integer status code, but both release
operations are declared with no return value at all. -/
theorem free_ops_do_not_return_status :
    (⟨"ct_status_free", [.mutPtr .ct_stathdl_t], .unit⟩ : FfiSig)
      ∈ externFns
    ∧ (⟨"ct_event_free", [.mutPtr .ct_evthdl_t], .unit⟩ : FfiSig)
      ∈ externFns
    ∧ CTy.unit ≠ CTy.c_int
    ∧ ¬ (∀ f ∈ externFns, f.ret = CTy.c_int) := by
  refine ⟨by decide, by decide, by decide, fun h => ?_⟩
  exact absurd
    (h ⟨"ct_status_free", [.mutPtr .ct_stathdl_t], .unit⟩ (by decide))
    (by decide)

/-- Claim C3 as amended: every foreign entry point other than the two
release operations and the sixteen direct value-returning accessors is
declared to return c_int, and the two release operations are declared
to return nothing. -/
theorem extern_return_type_classification :
    ∀ f ∈ externFns,
      (f.name ∈ releaseOps → f.ret = CTy.unit)
      ∧ (f.name ∉ releaseOps → f.name ∉ directValueAccessors →
          f.ret = CTy.c_int) := by
  decide

/-- Witness for extern_return_type_classification at the concrete
entry point ct_tmpl_activate. -/
theorem extern_return_type_classification_witness :
    ("ct_tmpl_activate" ∈ releaseOps →
      CTy.c_int = CTy.unit)
    ∧ ("ct_tmpl_activate" ∉ releaseOps →
        "ct_tmpl_activate" ∉ directValueAccessors →
        CTy.c_int = CTy.c_int) :=
  extern_return_type_classification
    ⟨"ct_tmpl_activate", [.c_int], .c_int⟩ (by decide)

/-- Status accessor names the spec's get_id .. get_critical family maps
to, in the spec's order. -/
def statusAccessorNames : List String :=
  ["ct_status_get_id", "ct_status_get_zoneid", "ct_status_get_type",
   "ct_status_get_state", "ct_status_get_holder",
   "ct_status_get_nevents", "ct_status_get_ntime",
   "ct_status_get_qtime", "ct_status_get_nevid",
   "ct_status_get_cookie", "ct_status_get_informative",
   "ct_status_get_critical"]

/-- Claim C6: for every accessor name in the spec's status family the
surface declares an extern entry point with that name whose single
parameter is the status handle and whose declared return type is the
projected value, not unit: it has no out-parameter and no separate
status code. -/
theorem status_accessors_take_handle_return_value :
    ∀ n ∈ statusAccessorNames,
      ∃ f ∈ externFns, f.name = n ∧ f.params.length = 1
        ∧ (∀ p ∈ f.params, isStatusHandleTy p = true)
        ∧ f.ret ≠ CTy.unit := by
  decide

/-- Witness for status_accessors_take_handle_return_value at the
concrete accessor name ct_status_get_cookie. -/
theorem status_accessors_witness :
    ∃ f ∈ externFns, f.name = "ct_status_get_cookie"
      ∧ f.params.length = 1
      ∧ (∀ p ∈ f.params, isStatusHandleTy p = true)
      ∧ f.ret ≠ CTy.unit :=
  status_accessors_take_handle_return_value "ct_status_get_cookie"
    (by decide)

/-- Claim C7: the conditional event accessors ct_event_get_nevid and
ct_event_get_newct take the event handle plus an out-pointer and return
a c_int status code, while the unconditional accessors ct_event_get_ctid,
ct_event_get_evid, ct_event_get_flags and ct_event_get_type take only
the event handle and return the projected value directly, never c_int
and never unit. -/
theorem event_accessor_signatures :
    (⟨"ct_event_get_ctid", [.mutPtr .ct_evthdl_t], .ctid_t⟩ : FfiSig)
      ∈ externFns
    ∧ (⟨"ct_event_get_evid", [.mutPtr .ct_evthdl_t], .ctevid_t⟩ : FfiSig)
      ∈ externFns
    ∧ (⟨"ct_event_get_flags", [.mutPtr .ct_evthdl_t], .c_uint⟩ : FfiSig)
      ∈ externFns
    ∧ (⟨"ct_event_get_type", [.mutPtr .ct_evthdl_t], .c_uint⟩ : FfiSig)
      ∈ externFns
    ∧ (⟨"ct_event_get_nevid",
        [.mutPtr .ct_evthdl_t, .mutPtr .ctevid_t], .c_int⟩ : FfiSig)
      ∈ externFns
    ∧ (⟨"ct_event_get_newct",
        [.mutPtr .ct_evthdl_t, .mutPtr .ctid_t], .c_int⟩ : FfiSig)
      ∈ externFns
    ∧ (∀ f ∈ externFns,
        f.name ∈ ["ct_event_get_ctid", "ct_event_get_evid",
          "ct_event_get_flags", "ct_event_get_type"] →
        f.params = [.mutPtr .ct_evthdl_t] ∧ f.ret ≠ CTy.c_int
          ∧ f.ret ≠ CTy.unit)
    ∧ (∀ f ∈ externFns,
        f.name ∈ ["ct_event_get_nevid", "ct_event_get_newct"] →
        f.params.length = 2 ∧ f.params.head? = some (.mutPtr .ct_evthdl_t)
          ∧ f.ret = CTy.c_int) := by
  refine ⟨by decide, by decide, by decide, by decide, by decide,
    by decide, by decide, by decide⟩

end ContractSys
